import Mathlib

/-
Verification development for the Rigol DP832A control library
(src/rigol.py).  The Python module is shallowly embedded:

* the byte-level device channel (`command` / `query`, rigol.py lines
  41-59) is modelled by `commandOS` / `queryOS`, explicit functions from
  an OS behaviour (`OSModel`) to a trace of OS events plus a result;
  Python's try/finally is translated by placing the close event on every
  branch that follows a successful open;
* the client methods (rigol.py lines 62-143) are state-passing functions
  `SM α = RigolDP832A → Device → RigolDP832A × List DevOp × Except Err α`
  recording the sequence of channel operations they issue; exceptions are
  `Except.error`, which aborts the remaining sequence exactly as a raised
  Python exception does;
* Python `float(...)` is modelled by `pyParseFloat` (sign, digits,
  fraction, exponent, inf/infinity/nan; the PEP-515 digit-group
  underscores are not modelled — no claim touches them), `str.strip()`
  by `pyStrip` over the ASCII whitespace set, `in` on strings by `pyIn`,
  and `bytes.decode('utf-8')` / `str.encode()` by an explicit strict
  UTF-8 codec over bytes-as-naturals.
-/

/-- Models the ASCII fragment of Python's whitespace test used by
`str.strip()`: space, tab, newline, carriage return, vertical tab,
form feed. -/
def pyIsSpace (c : Char) : Bool :=
  c == ' ' || c == '\t' || c == '\n' || c == '\r' || c == '\x0b' || c == '\x0c'

/-- Models Python `str.strip()`: drop whitespace from the front, then
from the back (implemented by reversing). -/
def pyStripList (l : List Char) : List Char :=
  (List.dropWhile pyIsSpace (List.dropWhile pyIsSpace l).reverse).reverse

/-- Models Python `str.strip()` on strings. -/
def pyStrip (s : String) : String :=
  ⟨pyStripList s.data⟩

/-- Does the first list occur at the head of the second one? -/
def startsWithList : List Char → List Char → Bool
  | [], _ => true
  | _ :: _, [] => false
  | a :: n, b :: h => a == b && startsWithList n h

/-- Substring search over character lists. -/
def pyInAux (n : List Char) : List Char → Bool
  | [] => startsWithList n []
  | c :: t => startsWithList n (c :: t) || pyInAux n t

/-- Models the Python expression `needle in hay` for strings. -/
def pyIn (needle hay : String) : Bool :=
  pyInAux needle.data hay.data

/-- Numeric value of a list of decimal digit characters. -/
def digitsToNat (l : List Char) : Nat :=
  l.foldl (fun a c => 10 * a + (c.toNat - 48)) 0

/-- Values of Python's float type, as far as this library observes them:
a finite value (modelled exactly as a rational) or one of the special
values produced by `float("inf")` / `float("nan")`. -/
inductive PyFloat
  | finite (val : ℚ)
  | inf
  | negInf
  | nan
deriving DecidableEq, Repr

/-- Parses the optional exponent tail of a float literal: either nothing
is left, or `e`/`E`, an optional sign and a nonempty run of digits that
consumes the rest of the input. -/
def parseExponent (mant : ℚ) (l : List Char) : Option ℚ :=
  match l with
  | [] => some mant
  | e :: rest =>
    if e == 'e' || e == 'E' then
      match rest with
      | '+' :: r =>
        if r ≠ [] ∧ r.all Char.isDigit then
          some (mant * (10 : ℚ) ^ (digitsToNat r)) else none
      | '-' :: r =>
        if r ≠ [] ∧ r.all Char.isDigit then
          some (mant / (10 : ℚ) ^ (digitsToNat r)) else none
      | r =>
        if r ≠ [] ∧ r.all Char.isDigit then
          some (mant * (10 : ℚ) ^ (digitsToNat r)) else none
    else none

/-- Parses an unsigned float literal: integer digits, an optional `.`
with fraction digits (at least one digit overall), then an optional
exponent. -/
def parseUnsignedFloat (l : List Char) : Option ℚ :=
  let ip := l.takeWhile Char.isDigit
  let rest := l.drop ip.length
  match rest with
  | '.' :: rest2 =>
    let fp := rest2.takeWhile Char.isDigit
    let rest3 := rest2.drop fp.length
    if ip.isEmpty && fp.isEmpty then none
    else parseExponent ((digitsToNat ip : ℚ) + (digitsToNat fp : ℚ) / (10 : ℚ) ^ fp.length) rest3
  | _ =>
    if ip.isEmpty then none else parseExponent (digitsToNat ip : ℚ) rest

/-- Parses the part of a float literal after an optional sign: the
case-insensitive special words `inf`, `infinity` and `nan`, or an
unsigned numeric literal. -/
def parseAfterSign (l : List Char) (neg : Bool) : Option PyFloat :=
  let lc := l.map Char.toLower
  if lc == "inf".data || lc == "infinity".data then
    some (if neg then PyFloat.negInf else PyFloat.inf)
  else if lc == "nan".data then some PyFloat.nan
  else (parseUnsignedFloat l).map (fun q => PyFloat.finite (if neg then -q else q))

/-- Models Python `float(s)`: surrounding whitespace is ignored, then an
optional sign followed by a numeric literal or a special word; `none`
models the `ValueError` raised on malformed input. -/
def pyParseFloat (s : String) : Option PyFloat :=
  match (pyStrip s).data with
  | '+' :: rest => parseAfterSign rest false
  | '-' :: rest => parseAfterSign rest true
  | l => parseAfterSign l false

/-- Models Python `str(x)` for a float command argument.  Python renders
floats as shortest round-trip decimals; the rendering is abstracted as
the rational's string — no theorem below depends on the digits, only on
which commands are sent and in which order. -/
def pyFloatStr : PyFloat → String
  | PyFloat.finite q => toString q
  | PyFloat.inf => "inf"
  | PyFloat.negInf => "-inf"
  | PyFloat.nan => "nan"

/-- UTF-8 encoding of one character, as bytes-as-naturals. -/
def utf8EncodeChar (c : Char) : List Nat :=
  let n := c.toNat
  if n < 0x80 then [n]
  else if n < 0x800 then [0xC0 + n / 0x40, 0x80 + n % 0x40]
  else if n < 0x10000 then
    [0xE0 + n / 0x1000, 0x80 + (n / 0x40) % 0x40, 0x80 + n % 0x40]
  else
    [0xF0 + n / 0x40000, 0x80 + (n / 0x1000) % 0x40, 0x80 + (n / 0x40) % 0x40, 0x80 + n % 0x40]

/-- Models Python `str.encode()` (UTF-8, cannot fail on well-formed
strings). -/
def pyEncode (s : String) : List Nat :=
  (s.data.map utf8EncodeChar).flatten

/-- Is the byte a UTF-8 continuation byte? -/
def utf8Cont (b : Nat) : Bool :=
  0x80 ≤ b && b < 0xC0

/-- Decodes one code point from the front of a byte list, rejecting
overlong forms, surrogates and out-of-range values exactly as Python's
strict `bytes.decode('utf-8')` does.  Returns the character and the
remaining bytes. -/
def utf8DecodeChar : List Nat → Option (Char × List Nat)
  | [] => none
  | b :: rest =>
    if b < 0x80 then some (Char.ofNat b, rest)
    else if b < 0xC2 then none
    else if b < 0xE0 then
      match rest with
      | c1 :: rest2 =>
        if utf8Cont c1 then some (Char.ofNat ((b - 0xC0) * 0x40 + (c1 - 0x80)), rest2)
        else none
      | _ => none
    else if b < 0xF0 then
      match rest with
      | c1 :: c2 :: rest2 =>
        if utf8Cont c1 && utf8Cont c2 then
          let cp := (b - 0xE0) * 0x1000 + (c1 - 0x80) * 0x40 + (c2 - 0x80)
          if 0x800 ≤ cp && ¬ (0xD800 ≤ cp && cp < 0xE000) then
            some (Char.ofNat cp, rest2)
          else none
        else none
      | _ => none
    else if b < 0xF5 then
      match rest with
      | c1 :: c2 :: c3 :: rest2 =>
        if utf8Cont c1 && utf8Cont c2 && utf8Cont c3 then
          let cp := (b - 0xF0) * 0x40000 + (c1 - 0x80) * 0x1000 + (c2 - 0x80) * 0x40 + (c3 - 0x80)
          if 0x10000 ≤ cp && cp ≤ 0x10FFFF then some (Char.ofNat cp, rest2)
          else none
        else none
      | _ => none
    else none

/-- Decodes a whole byte list; the fuel is the list length, which
suffices because each step consumes at least one byte. -/
def utf8DecodeAux : Nat → List Nat → Option (List Char)
  | _, [] => some []
  | 0, _ :: _ => none
  | fuel + 1, l =>
    match utf8DecodeChar l with
    | none => none
    | some (c, rest) => (utf8DecodeAux fuel rest).map (fun cs => c :: cs)

/-- Models Python `bytes.decode('utf-8')`; `none` models the
`UnicodeDecodeError` raised on invalid byte sequences. -/
def pyDecodeUtf8 (l : List Nat) : Option String :=
  (utf8DecodeAux l.length l).map (fun cs => ⟨cs⟩)

/-- The error kinds of the design (spec section 7): device-file failures,
invalid text, unparseable replies (carrying the offending raw text) and
the failed identity check at construction (carrying the identity reply).
Python raises `OSError`, `UnicodeDecodeError`, `ValueError` and
`ConnectionError` respectively. -/
inductive Err
  | deviceIOError
  | decodeError
  | parseError (raw : String)
  | connectionError (idn : String)
deriving DecidableEq, Repr

/-- Behaviour of the operating system and device for a single
open/write/[read]/close cycle: whether `os.open`, `os.write` and
`os.read` succeed, and the bytes the device has buffered for a read. -/
structure OSModel where
  openOk : Bool
  writeOk : Bool
  readOk : Bool
  replyBytes : List Nat
deriving DecidableEq, Repr

/-- The observable OS-level events of one channel operation. -/
inductive OSEvent
  | evOpen (ok : Bool)
  | evWrite (bytes : List Nat) (ok : Bool)
  | evSleep (seconds : ℚ)
  | evRead (maxBytes : Nat) (ok : Bool)
  | evClose
deriving DecidableEq, Repr

/-- Embeds `RigolDP832A.command` (rigol.py lines 41-48): open the device
read+write, write the command plus a single newline, sleep 0.05 s, and
close the handle; the `finally` block is translated by a close event on
every branch after a successful open. -/
def commandOS (os : OSModel) (cmd : String) : List OSEvent × Except Err Unit :=
  if os.openOk = false then
    ([OSEvent.evOpen false], Except.error Err.deviceIOError)
  else
    let data := pyEncode (cmd ++ "\n")
    if os.writeOk = false then
      ([OSEvent.evOpen true, OSEvent.evWrite data false, OSEvent.evClose],
       Except.error Err.deviceIOError)
    else
      ([OSEvent.evOpen true, OSEvent.evWrite data true, OSEvent.evSleep (5 / 100),
        OSEvent.evClose],
       Except.ok ())

/-- Embeds `RigolDP832A.query` (rigol.py lines 50-59): open, write the
command plus a single newline, sleep 0.1 s, read at most 4096 bytes,
decode them as UTF-8, strip surrounding whitespace and return the text;
the `finally` block is translated by a close event on every branch after
a successful open. -/
def queryOS (os : OSModel) (cmd : String) : List OSEvent × Except Err String :=
  if os.openOk = false then
    ([OSEvent.evOpen false], Except.error Err.deviceIOError)
  else
    let data := pyEncode (cmd ++ "\n")
    if os.writeOk = false then
      ([OSEvent.evOpen true, OSEvent.evWrite data false, OSEvent.evClose],
       Except.error Err.deviceIOError)
    else if os.readOk = false then
      ([OSEvent.evOpen true, OSEvent.evWrite data true, OSEvent.evSleep (1 / 10),
        OSEvent.evRead 4096 false, OSEvent.evClose],
       Except.error Err.deviceIOError)
    else
      match pyDecodeUtf8 (os.replyBytes.take 4096) with
      | none =>
        ([OSEvent.evOpen true, OSEvent.evWrite data true, OSEvent.evSleep (1 / 10),
          OSEvent.evRead 4096 true, OSEvent.evClose],
         Except.error Err.decodeError)
      | some s =>
        ([OSEvent.evOpen true, OSEvent.evWrite data true, OSEvent.evSleep (1 / 10),
          OSEvent.evRead 4096 true, OSEvent.evClose],
         Except.ok (pyStrip s))

/-- Number of close events in an OS trace. -/
def countClose : List OSEvent → Nat
  | [] => 0
  | OSEvent.evClose :: t => countClose t + 1
  | _ :: t => countClose t

/-- Number of successful open events in an OS trace. -/
def countOpenOk : List OSEvent → Nat
  | [] => 0
  | OSEvent.evOpen true :: t => countOpenOk t + 1
  | _ :: t => countOpenOk t

/-- A device is modelled by the OS behaviour it exhibits for each
command line the client issues. -/
structure Device where
  os : String → OSModel

/-- The device answers a query command with the given (already stripped)
reply text. -/
def Device.answers (d : Device) (cmd reply : String) : Prop :=
  (queryOS (d.os cmd) cmd).2 = Except.ok reply

/-- Sending the given command to the device succeeds. -/
def Device.sendSucceeds (d : Device) (cmd : String) : Prop :=
  (commandOS (d.os cmd) cmd).2 = Except.ok ()

/-- The channel-level operations a client method issues, in order. -/
inductive DevOp
  | send (cmd : String)
  | query (cmd : String)
deriving DecidableEq, Repr

/-- The client's own state: the stored device path and the identity
string captured at construction (rigol.py lines 30-39). -/
structure RigolDP832A where
  device : String
  idn : String
deriving DecidableEq, Repr

/-- The aggregate snapshot returned by `status` (rigol.py lines 16-24). -/
structure ChannelStatus where
  channel : ℤ
  output : Bool
  voltage_set : PyFloat
  current_set : PyFloat
  voltage : PyFloat
  current : PyFloat
  power : PyFloat
deriving DecidableEq, Repr

/-- A client method: from the client's state and the device behaviour to
the client's state after the call, the trace of channel operations
issued, and the result (`Except.error` models a raised exception). -/
abbrev SM (α : Type) : Type :=
  RigolDP832A → Device → RigolDP832A × List DevOp × Except Err α

/-- Returning a value: no channel operation, no state change. -/
def sret {α : Type} (a : α) : SM α :=
  fun c _ => (c, [], Except.ok a)

/-- Sequencing two method bodies: a raised exception in the first aborts
the second, exactly as in Python. -/
def sbind {α β : Type} (x : SM α) (f : α → SM β) : SM β :=
  fun c d =>
    match (x c d).2.2 with
    | Except.error e => ((x c d).1, (x c d).2.1, Except.error e)
    | Except.ok a =>
      ((f a (x c d).1 d).1,
       (x c d).2.1 ++ (f a (x c d).1 d).2.1,
       (f a (x c d).1 d).2.2)

namespace RigolDP832A

/-- Embeds the `command` method at channel level: one send operation
whose outcome is that of the byte-level `commandOS`. -/
def command (cmd : String) : SM Unit :=
  fun c d => (c, [DevOp.send cmd], (commandOS (d.os cmd) cmd).2)

/-- Embeds the `query` method at channel level: one query operation
whose outcome is that of the byte-level `queryOS`. -/
def query (cmd : String) : SM String :=
  fun c d => (c, [DevOp.query cmd], (queryOS (d.os cmd) cmd).2)

/-- Embeds Python `float(...)` applied to a reply inside a method body:
a malformed reply raises `ValueError` carrying the text. -/
def toFloat (s : String) : SM PyFloat :=
  fun c _ =>
    match pyParseFloat s with
    | some v => (c, [], Except.ok v)
    | none => (c, [], Except.error (Err.parseError s))

/-- Embeds `output_on` (rigol.py lines 62-64). -/
def output_on (channel : ℤ) : SM Unit :=
  command (":OUTP CH" ++ toString channel ++ ",ON")

/-- Embeds `output_off` (rigol.py lines 66-68). -/
def output_off (channel : ℤ) : SM Unit :=
  command (":OUTP CH" ++ toString channel ++ ",OFF")

/-- Embeds `get_output` (rigol.py lines 70-72). -/
def get_output (channel : ℤ) : SM Bool :=
  sbind (query (":OUTP? CH" ++ toString channel)) (fun s => sret (s == "ON"))

/-- Embeds `set_voltage` (rigol.py lines 75-77). -/
def set_voltage (channel : ℤ) (voltage : PyFloat) : SM Unit :=
  command (":SOUR" ++ toString channel ++ ":VOLT " ++ pyFloatStr voltage)

/-- Embeds `get_voltage_setpoint` (rigol.py lines 79-81). -/
def get_voltage_setpoint (channel : ℤ) : SM PyFloat :=
  sbind (query (":SOUR" ++ toString channel ++ ":VOLT?")) toFloat

/-- Embeds `measure_voltage` (rigol.py lines 83-85). -/
def measure_voltage (channel : ℤ) : SM PyFloat :=
  sbind (query (":MEAS:VOLT? CH" ++ toString channel)) toFloat

/-- Embeds `set_current` (rigol.py lines 88-90). -/
def set_current (channel : ℤ) (current : PyFloat) : SM Unit :=
  command (":SOUR" ++ toString channel ++ ":CURR " ++ pyFloatStr current)

/-- Embeds `get_current_setpoint` (rigol.py lines 92-94). -/
def get_current_setpoint (channel : ℤ) : SM PyFloat :=
  sbind (query (":SOUR" ++ toString channel ++ ":CURR?")) toFloat

/-- Embeds `measure_current` (rigol.py lines 96-98). -/
def measure_current (channel : ℤ) : SM PyFloat :=
  sbind (query (":MEAS:CURR? CH" ++ toString channel)) toFloat

/-- Embeds `measure_power` (rigol.py lines 101-103). -/
def measure_power (channel : ℤ) : SM PyFloat :=
  sbind (query (":MEAS:POWE? CH" ++ toString channel)) toFloat

/-- Embeds `set_ovp` (rigol.py lines 106-109): set the threshold, then
enable the protection. -/
def set_ovp (channel : ℤ) (voltage : PyFloat) : SM Unit :=
  sbind (command (":OUTP:OVP:VAL CH" ++ toString channel ++ "," ++ pyFloatStr voltage))
    (fun _ => command (":OUTP:OVP CH" ++ toString channel ++ ",ON"))

/-- Embeds `set_ocp` (rigol.py lines 111-114): set the threshold, then
enable the protection. -/
def set_ocp (channel : ℤ) (current : PyFloat) : SM Unit :=
  sbind (command (":OUTP:OCP:VAL CH" ++ toString channel ++ "," ++ pyFloatStr current))
    (fun _ => command (":OUTP:OCP CH" ++ toString channel ++ ",ON"))

/-- Embeds `status` (rigol.py lines 117-127): the keyword arguments of
the `ChannelStatus` constructor call are evaluated left to right. -/
def status (channel : ℤ) : SM ChannelStatus :=
  sbind (get_output channel) (fun outp =>
  sbind (get_voltage_setpoint channel) (fun vset =>
  sbind (get_current_setpoint channel) (fun cset =>
  sbind (measure_voltage channel) (fun v =>
  sbind (measure_current channel) (fun i =>
  sbind (measure_power channel) (fun p =>
  sret { channel := channel, output := outp, voltage_set := vset,
         current_set := cset, voltage := v, current := i, power := p }))))))

/-- Embeds `all_off` (rigol.py lines 129-132); the loop over the literal
list `[1, 2, 3]` is unrolled. -/
def all_off : SM Unit :=
  sbind (output_off 1) (fun _ =>
  sbind (output_off 2) (fun _ =>
  output_off 3))

/-- Embeds `configure` (rigol.py lines 134-140).  The Python parameter
`output` defaults to `False`; the default is made explicit at each use
below. -/
def configure (channel : ℤ) (voltage current : PyFloat) (output : Bool) : SM Unit :=
  sbind (set_voltage channel voltage) (fun _ =>
  sbind (set_current channel current) (fun _ =>
  if output then output_on channel else sret ()))

/-- Embeds `_verify_connection` (rigol.py lines 34-39): query the
identity, raise `ConnectionError` when the reply contains neither
`RIGOL` nor `DP8`, and otherwise store the reply in `self.idn`. -/
def verify_connection : SM Unit :=
  sbind (query "*IDN?") (fun idn => fun c _ =>
    if !pyIn "RIGOL" idn && !pyIn "DP8" idn then
      (c, [], Except.error (Err.connectionError idn))
    else
      ({ c with idn := idn }, [], Except.ok ()))

/-- Embeds `__init__` (rigol.py lines 30-32): store the device path and
verify the connection.  Before `_verify_connection` assigns it, the
`idn` attribute does not exist; the placeholder empty string models the
unset attribute and is never observable (on success it is overwritten,
on failure no object is returned). -/
def init (device : String) (d : Device) : List DevOp × Except Err RigolDP832A :=
  let c0 : RigolDP832A := { device := device, idn := "" }
  let r := verify_connection c0 d
  (r.2.1,
   match r.2.2 with
   | Except.error e => Except.error e
   | Except.ok _ => Except.ok r.1)

end RigolDP832A

/-- Concrete OS behaviour for tests: every call succeeds and the device
has the given reply text buffered. -/
def okOS (reply : String) : OSModel :=
  { openOk := true, writeOk := true, readOk := true, replyBytes := pyEncode reply }

/-- Concrete client state for tests. -/
def clientA : RigolDP832A :=
  { device := "/dev/usbtmc2", idn := "RIGOL TECHNOLOGIES,DP832A,DP8A000000000,00.01.16" }

/-- Concrete device for tests: answers the channel-1 output query with
`ON` and every other query with `3`; all sends succeed. -/
def devAll : Device :=
  ⟨fun cmd => if cmd == ":OUTP? CH1" then okOS "ON" else okOS "3"⟩

/-- Concrete device for tests: opening the device file fails for the
channel-1 off command, every other operation succeeds. -/
def devCh1Fails : Device :=
  ⟨fun cmd =>
    if cmd == ":OUTP CH1,OFF" then
      { openOk := false, writeOk := true, readOk := true, replyBytes := [] }
    else okOS "3"⟩

/-- Concrete device for tests: answers every query with the text `ERR`. -/
def devErr : Device :=
  ⟨fun _ => okOS "ERR"⟩

/-- Auxiliary: the first element surviving `dropWhile p` falsifies `p`. -/
theorem head_dropWhile_eq_false {p : Char → Bool} :
    ∀ (l : List Char) (a : Char), (List.dropWhile p l).head? = some a → p a = false := by
  intro l
  induction l with
  | nil => intro a h; simp [List.dropWhile] at h
  | cons c t ih =>
    intro a h
    rw [List.dropWhile_cons] at h
    by_cases hc : p c = true
    · exact ih a (by simpa [hc] using h)
    · have hca : c = a := by simpa [hc] using h
      cases hp : p c with
      | false => rw [← hca]; exact hp
      | true => exact absurd hp hc

/-- Auxiliary: a last element of `dropWhile p l` is a last element of
`l` itself. -/
theorem getLast_dropWhile {p : Char → Bool} :
    ∀ (l : List Char) (a : Char),
      (List.dropWhile p l).getLast? = some a → l.getLast? = some a := by
  intro l
  induction l with
  | nil => intro a h; simp [List.dropWhile] at h
  | cons c t ih =>
    intro a h
    rw [List.dropWhile_cons] at h
    by_cases hc : p c = true
    · rw [if_pos hc] at h
      have ht := ih a h
      cases t with
      | nil => simp at ht
      | cons b t2 => rw [List.getLast?_cons_cons]; exact ht
    · rw [if_neg hc] at h
      exact h

/-- A first character of stripped text is never whitespace. -/
theorem pyStrip_head (s : String) (a : Char) :
    (pyStrip s).data.head? = some a → pyIsSpace a = false := by
  intro h
  have h1 : (List.dropWhile pyIsSpace (List.dropWhile pyIsSpace s.data).reverse).getLast?
      = some a := by
    rw [← List.head?_reverse]; exact h
  have h2 := getLast_dropWhile _ a h1
  rw [List.getLast?_reverse] at h2
  exact head_dropWhile_eq_false _ a h2

/-- A last character of stripped text is never whitespace. -/
theorem pyStrip_last (s : String) (a : Char) :
    (pyStrip s).data.getLast? = some a → pyIsSpace a = false := by
  intro h
  have h1 : (List.dropWhile pyIsSpace (List.dropWhile pyIsSpace s.data).reverse).head?
      = some a := by
    rw [← List.getLast?_reverse]; exact h
  exact head_dropWhile_eq_false _ a h1

/-- Claim C7: in both `command` and `query`, the device handle opened at
the start of the operation is released on every exit path — for every
behaviour of open, write, read and decode, the trace holds exactly as
many close events as successful open events. -/
theorem command_query_release_handle (os : OSModel) (cmd : String) :
    countClose (commandOS os cmd).1 = countOpenOk (commandOS os cmd).1 ∧
    countClose (queryOS os cmd).1 = countOpenOk (queryOS os cmd).1 := by
  obtain ⟨o, w, r, bytes⟩ := os
  constructor
  · cases o <;> cases w <;> simp [commandOS, countClose, countOpenOk]
  · cases o <;> cases w <;> cases r <;>
      simp only [queryOS] <;>
      first
        | rfl
        | (cases pyDecodeUtf8 (bytes.take 4096) <;> rfl)

/-- Claim C5: for any well-formed textual reply, `query` writes the
command followed by a single newline, sleeps, requests at most 4096
bytes, decodes them and returns the text with surrounding whitespace
trimmed; in particular the result neither starts nor ends with a
whitespace character, so it has no trailing newline. -/
theorem query_io_contract (os : OSModel) (cmd s : String)
    (ho : os.openOk = true) (hw : os.writeOk = true) (hr : os.readOk = true)
    (hd : pyDecodeUtf8 (os.replyBytes.take 4096) = some s) :
    queryOS os cmd =
      ([OSEvent.evOpen true, OSEvent.evWrite (pyEncode (cmd ++ "\n")) true,
        OSEvent.evSleep (1 / 10), OSEvent.evRead 4096 true, OSEvent.evClose],
       Except.ok (pyStrip s)) ∧
    (∀ a, (pyStrip s).data.head? = some a → pyIsSpace a = false) ∧
    (∀ a, (pyStrip s).data.getLast? = some a → pyIsSpace a = false) ∧
    (pyStrip s).data.getLast? ≠ some '\n' := by
  refine ⟨?_, pyStrip_head s, pyStrip_last s, ?_⟩
  · simp [queryOS, ho, hw, hr, hd]
  · intro h
    have := pyStrip_last s '\n' h
    simp [pyIsSpace] at this

/-- Claim C6: for every channel, `get_output` returns true exactly when
the trimmed query reply is the string `ON`; any other reply yields
false, never a third state and never a failure. -/
theorem get_output_exact_match (c : RigolDP832A) (d : Device) (ch : ℤ) (reply : String)
    (h : d.answers (":OUTP? CH" ++ toString ch) reply) :
    (RigolDP832A.get_output ch c d).2.2 = Except.ok (reply == "ON") ∧
    ((RigolDP832A.get_output ch c d).2.2 = Except.ok true ↔ reply = "ON") := by
  unfold Device.answers at h
  have h1 : (RigolDP832A.get_output ch c d).2.2 = Except.ok (reply == "ON") := by
    simp [RigolDP832A.get_output, sbind, RigolDP832A.query, sret, h]
  refine ⟨h1, ?_⟩
  rw [h1]
  simp

/-- Witness for claim C6 at a concrete device that answers `ON`. -/
theorem get_output_exact_match_witness :
    (RigolDP832A.get_output 1 clientA devAll).2.2 = Except.ok true :=
  ((get_output_exact_match clientA devAll 1 "ON" (by rfl)).2).2 rfl

/-- Claim C3: a setpoint or measurement query whose reply is not
parseable as a float raises `ParseError` carrying the offending raw
text — it never returns a substituted numeric value. -/
theorem setpoint_parse_error (c : RigolDP832A) (d : Device) (ch : ℤ) (reply : String)
    (hp : pyParseFloat reply = none) :
    (d.answers (":SOUR" ++ toString ch ++ ":VOLT?") reply →
      (RigolDP832A.get_voltage_setpoint ch c d).2.2 = Except.error (Err.parseError reply)) ∧
    (d.answers (":SOUR" ++ toString ch ++ ":CURR?") reply →
      (RigolDP832A.get_current_setpoint ch c d).2.2 = Except.error (Err.parseError reply)) ∧
    (d.answers (":MEAS:VOLT? CH" ++ toString ch) reply →
      (RigolDP832A.measure_voltage ch c d).2.2 = Except.error (Err.parseError reply)) ∧
    (d.answers (":MEAS:CURR? CH" ++ toString ch) reply →
      (RigolDP832A.measure_current ch c d).2.2 = Except.error (Err.parseError reply)) ∧
    (d.answers (":MEAS:POWE? CH" ++ toString ch) reply →
      (RigolDP832A.measure_power ch c d).2.2 = Except.error (Err.parseError reply)) := by
  refine ⟨?_, ?_, ?_, ?_, ?_⟩ <;> intro h <;> unfold Device.answers at h <;>
    simp [RigolDP832A.get_voltage_setpoint, RigolDP832A.get_current_setpoint,
          RigolDP832A.measure_voltage, RigolDP832A.measure_current,
          RigolDP832A.measure_power,
          sbind, RigolDP832A.query, RigolDP832A.toFloat, h, hp]

/-- Witness for claim C3 at a concrete device that answers `ERR` to
every query. -/
theorem setpoint_parse_error_witness :
    (RigolDP832A.get_voltage_setpoint 1 clientA devErr).2.2 =
      Except.error (Err.parseError "ERR") ∧
    (RigolDP832A.get_current_setpoint 1 clientA devErr).2.2 =
      Except.error (Err.parseError "ERR") ∧
    (RigolDP832A.measure_voltage 1 clientA devErr).2.2 =
      Except.error (Err.parseError "ERR") ∧
    (RigolDP832A.measure_current 1 clientA devErr).2.2 =
      Except.error (Err.parseError "ERR") ∧
    (RigolDP832A.measure_power 1 clientA devErr).2.2 =
      Except.error (Err.parseError "ERR") :=
  ⟨(setpoint_parse_error clientA devErr 1 "ERR" (by rfl)).1 (by rfl),
   (setpoint_parse_error clientA devErr 1 "ERR" (by rfl)).2.1 (by rfl),
   (setpoint_parse_error clientA devErr 1 "ERR" (by rfl)).2.2.1 (by rfl),
   (setpoint_parse_error clientA devErr 1 "ERR" (by rfl)).2.2.2.1 (by rfl),
   (setpoint_parse_error clientA devErr 1 "ERR" (by rfl)).2.2.2.2 (by rfl)⟩

/-- Concrete device for tests: answers every query with a DP832A
identity string. -/
def devIdn : Device :=
  ⟨fun _ => okOS "RIGOL TECHNOLOGIES,DP832A,DP8A234M00001,00.01.16"⟩

/-- Claim C4: construction issues a single identity query; it fails with
`ConnectionError` exactly when the identity reply contains neither
`RIGOL` nor `DP8`, performing no further device operation, and on
success it returns the client with the identity string stored. -/
theorem init_identity_check (device : String) (d : Device) (idn : String)
    (h : (queryOS (d.os "*IDN?") "*IDN?").2 = Except.ok idn) :
    (RigolDP832A.init device d).1 = [DevOp.query "*IDN?"] ∧
    ((RigolDP832A.init device d).2 = Except.error (Err.connectionError idn) ↔
      pyIn "RIGOL" idn = false ∧ pyIn "DP8" idn = false) ∧
    (pyIn "RIGOL" idn = true ∨ pyIn "DP8" idn = true →
      (RigolDP832A.init device d).2 =
        Except.ok { device := device, idn := idn }) := by
  cases hR : pyIn "RIGOL" idn <;> cases hD : pyIn "DP8" idn <;>
    simp [RigolDP832A.init, RigolDP832A.verify_connection, sbind,
          RigolDP832A.query, h, hR, hD]

/-- Witness for claim C4 at a concrete device answering a DP832A
identity string. -/
theorem init_identity_check_witness :
    (RigolDP832A.init "/dev/usbtmc2" devIdn).1 = [DevOp.query "*IDN?"] ∧
    (RigolDP832A.init "/dev/usbtmc2" devIdn).2 =
      Except.ok { device := "/dev/usbtmc2",
                  idn := "RIGOL TECHNOLOGIES,DP832A,DP8A234M00001,00.01.16" } := by
  have h := init_identity_check "/dev/usbtmc2" devIdn
    "RIGOL TECHNOLOGIES,DP832A,DP8A234M00001,00.01.16" (by rfl)
  exact ⟨h.1, h.2.2 (Or.inl (by decide))⟩

/-- Counterexample to claim C2 as stated: when opening the device for
the channel-1 off command fails, `all_off` issues only that one send —
channels 2 and 3 are never attempted, so the three sends are not issued
"even if an earlier channel's send fails". -/
theorem all_off_counterexample :
    ¬ ((RigolDP832A.all_off clientA devCh1Fails).2.1.length = 3) := by decide

/-- Concrete device for tests: opening the device file fails for the
channel-2 off command, every other operation succeeds. -/
def devCh2Fails : Device :=
  ⟨fun cmd =>
    if cmd == ":OUTP CH2,OFF" then
      { openOk := false, writeOk := true, readOk := true, replyBytes := [] }
    else okOS "3"⟩

/-- Concrete device for tests: opening the device file fails for the
channel-3 off command, every other operation succeeds. -/
def devCh3Fails : Device :=
  ⟨fun cmd =>
    if cmd == ":OUTP CH3,OFF" then
      { openOk := false, writeOk := true, readOk := true, replyBytes := [] }
    else okOS "3"⟩

/-- Claim C2 as amended: `all_off` issues exactly three sends, one per
channel in ascending order 1, 2, 3, provided each send succeeds; if the
send for any channel fails, the exception propagates immediately, the
earlier sends having been issued and the later channels' sends never
attempted. -/
theorem all_off_three_sends (c : RigolDP832A) (d : Device)
    (h1 : d.sendSucceeds ":OUTP CH1,OFF") (h2 : d.sendSucceeds ":OUTP CH2,OFF")
    (h3 : d.sendSucceeds ":OUTP CH3,OFF") :
    RigolDP832A.all_off c d =
      (c,
       [DevOp.send ":OUTP CH1,OFF", DevOp.send ":OUTP CH2,OFF", DevOp.send ":OUTP CH3,OFF"],
       Except.ok ()) ∧
    (∀ (d2 : Device) (e : Err),
      (commandOS (d2.os ":OUTP CH1,OFF") ":OUTP CH1,OFF").2 = Except.error e →
      RigolDP832A.all_off c d2 = (c, [DevOp.send ":OUTP CH1,OFF"], Except.error e)) ∧
    (∀ (d2 : Device) (e : Err),
      d2.sendSucceeds ":OUTP CH1,OFF" →
      (commandOS (d2.os ":OUTP CH2,OFF") ":OUTP CH2,OFF").2 = Except.error e →
      RigolDP832A.all_off c d2 =
        (c, [DevOp.send ":OUTP CH1,OFF", DevOp.send ":OUTP CH2,OFF"], Except.error e)) ∧
    (∀ (d2 : Device) (e : Err),
      d2.sendSucceeds ":OUTP CH1,OFF" →
      d2.sendSucceeds ":OUTP CH2,OFF" →
      (commandOS (d2.os ":OUTP CH3,OFF") ":OUTP CH3,OFF").2 = Except.error e →
      RigolDP832A.all_off c d2 =
        (c,
         [DevOp.send ":OUTP CH1,OFF", DevOp.send ":OUTP CH2,OFF", DevOp.send ":OUTP CH3,OFF"],
         Except.error e)) := by
  have h1' : (commandOS (d.os (":OUTP CH" ++ toString (1 : ℤ) ++ ",OFF"))
      (":OUTP CH" ++ toString (1 : ℤ) ++ ",OFF")).2 = Except.ok () := h1
  have h2' : (commandOS (d.os (":OUTP CH" ++ toString (2 : ℤ) ++ ",OFF"))
      (":OUTP CH" ++ toString (2 : ℤ) ++ ",OFF")).2 = Except.ok () := h2
  have h3' : (commandOS (d.os (":OUTP CH" ++ toString (3 : ℤ) ++ ",OFF"))
      (":OUTP CH" ++ toString (3 : ℤ) ++ ",OFF")).2 = Except.ok () := h3
  refine ⟨?_, ?_, ?_, ?_⟩
  · simp only [RigolDP832A.all_off, RigolDP832A.output_off, RigolDP832A.command,
               sbind, h1', h2', h3']
    rfl
  · intro d2 e he
    have he' : (commandOS (d2.os (":OUTP CH" ++ toString (1 : ℤ) ++ ",OFF"))
        (":OUTP CH" ++ toString (1 : ℤ) ++ ",OFF")).2 = Except.error e := he
    simp only [RigolDP832A.all_off, RigolDP832A.output_off, RigolDP832A.command,
               sbind, he']
    rfl
  · intro d2 e hok1 he
    have hok1' : (commandOS (d2.os (":OUTP CH" ++ toString (1 : ℤ) ++ ",OFF"))
        (":OUTP CH" ++ toString (1 : ℤ) ++ ",OFF")).2 = Except.ok () := hok1
    have he' : (commandOS (d2.os (":OUTP CH" ++ toString (2 : ℤ) ++ ",OFF"))
        (":OUTP CH" ++ toString (2 : ℤ) ++ ",OFF")).2 = Except.error e := he
    simp only [RigolDP832A.all_off, RigolDP832A.output_off, RigolDP832A.command,
               sbind, hok1', he']
    rfl
  · intro d2 e hok1 hok2 he
    have hok1' : (commandOS (d2.os (":OUTP CH" ++ toString (1 : ℤ) ++ ",OFF"))
        (":OUTP CH" ++ toString (1 : ℤ) ++ ",OFF")).2 = Except.ok () := hok1
    have hok2' : (commandOS (d2.os (":OUTP CH" ++ toString (2 : ℤ) ++ ",OFF"))
        (":OUTP CH" ++ toString (2 : ℤ) ++ ",OFF")).2 = Except.ok () := hok2
    have he' : (commandOS (d2.os (":OUTP CH" ++ toString (3 : ℤ) ++ ",OFF"))
        (":OUTP CH" ++ toString (3 : ℤ) ++ ",OFF")).2 = Except.error e := he
    simp only [RigolDP832A.all_off, RigolDP832A.output_off, RigolDP832A.command,
               sbind, hok1', hok2', he']
    rfl

/-- Witness for claim C2 (amended) at a concrete device where all sends
succeed and at concrete devices where the channel-1, channel-2 or
channel-3 send fails. -/
theorem all_off_three_sends_witness :
    RigolDP832A.all_off clientA devAll =
      (clientA,
       [DevOp.send ":OUTP CH1,OFF", DevOp.send ":OUTP CH2,OFF", DevOp.send ":OUTP CH3,OFF"],
       Except.ok ()) ∧
    RigolDP832A.all_off clientA devCh1Fails =
      (clientA, [DevOp.send ":OUTP CH1,OFF"], Except.error Err.deviceIOError) ∧
    RigolDP832A.all_off clientA devCh2Fails =
      (clientA, [DevOp.send ":OUTP CH1,OFF", DevOp.send ":OUTP CH2,OFF"],
       Except.error Err.deviceIOError) ∧
    RigolDP832A.all_off clientA devCh3Fails =
      (clientA,
       [DevOp.send ":OUTP CH1,OFF", DevOp.send ":OUTP CH2,OFF", DevOp.send ":OUTP CH3,OFF"],
       Except.error Err.deviceIOError) := by
  have h := all_off_three_sends clientA devAll (by rfl) (by rfl) (by rfl)
  exact ⟨h.1,
         h.2.1 devCh1Fails Err.deviceIOError (by rfl),
         h.2.2.1 devCh2Fails Err.deviceIOError (by rfl) (by rfl),
         h.2.2.2 devCh3Fails Err.deviceIOError (by rfl) (by rfl) (by rfl)⟩

/-- Witness for claim C5 at a concrete reply carrying surrounding
whitespace and a trailing newline. -/
theorem query_io_contract_witness :
    queryOS (okOS " 3.5\n") ":MEAS:VOLT? CH1" =
      ([OSEvent.evOpen true, OSEvent.evWrite (pyEncode (":MEAS:VOLT? CH1" ++ "\n")) true,
        OSEvent.evSleep (1 / 10), OSEvent.evRead 4096 true, OSEvent.evClose],
       Except.ok "3.5") ∧
    (∀ a, ("3.5" : String).data.head? = some a → pyIsSpace a = false) ∧
    (∀ a, ("3.5" : String).data.getLast? = some a → pyIsSpace a = false) ∧
    ("3.5" : String).data.getLast? ≠ some '\n' :=
  query_io_contract (okOS " 3.5\n") ":MEAS:VOLT? CH1" " 3.5\n" rfl rfl rfl (by rfl)

/-- Claim C8: `set_ovp` and `set_ocp` each issue exactly two sends, in
order: first the command setting the threshold value, then the command
enabling the protection. -/
theorem protection_two_sends (c : RigolDP832A) (d : Device) (ch : ℤ) (v i : PyFloat)
    (hv : d.sendSucceeds (":OUTP:OVP:VAL CH" ++ toString ch ++ "," ++ pyFloatStr v))
    (hi : d.sendSucceeds (":OUTP:OCP:VAL CH" ++ toString ch ++ "," ++ pyFloatStr i)) :
    (RigolDP832A.set_ovp ch v c d).2.1 =
      [DevOp.send (":OUTP:OVP:VAL CH" ++ toString ch ++ "," ++ pyFloatStr v),
       DevOp.send (":OUTP:OVP CH" ++ toString ch ++ ",ON")] ∧
    (RigolDP832A.set_ocp ch i c d).2.1 =
      [DevOp.send (":OUTP:OCP:VAL CH" ++ toString ch ++ "," ++ pyFloatStr i),
       DevOp.send (":OUTP:OCP CH" ++ toString ch ++ ",ON")] := by
  unfold Device.sendSucceeds at hv hi
  constructor <;>
    simp [RigolDP832A.set_ovp, RigolDP832A.set_ocp, RigolDP832A.command, sbind, hv, hi]

/-- Witness for claim C8 at a concrete device and threshold. -/
theorem protection_two_sends_witness :
    (RigolDP832A.set_ovp 1 (PyFloat.finite 3) clientA devAll).2.1 =
      [DevOp.send ":OUTP:OVP:VAL CH1,3", DevOp.send ":OUTP:OVP CH1,ON"] ∧
    (RigolDP832A.set_ocp 1 (PyFloat.finite 3) clientA devAll).2.1 =
      [DevOp.send ":OUTP:OCP:VAL CH1,3", DevOp.send ":OUTP:OCP CH1,ON"] :=
  protection_two_sends clientA devAll 1 (PyFloat.finite 3) (PyFloat.finite 3) (by rfl) (by rfl)

/-- Claim C9: `configure` issues the voltage setpoint send first, then
the current setpoint send, and an output-enable send only when the
enable flag is true; with the flag false (its Python default) no
output-state command is issued. -/
theorem configure_send_order (c : RigolDP832A) (d : Device) (ch : ℤ) (v i : PyFloat)
    (hv : d.sendSucceeds (":SOUR" ++ toString ch ++ ":VOLT " ++ pyFloatStr v))
    (hi : d.sendSucceeds (":SOUR" ++ toString ch ++ ":CURR " ++ pyFloatStr i)) :
    (RigolDP832A.configure ch v i true c d).2.1 =
      [DevOp.send (":SOUR" ++ toString ch ++ ":VOLT " ++ pyFloatStr v),
       DevOp.send (":SOUR" ++ toString ch ++ ":CURR " ++ pyFloatStr i),
       DevOp.send (":OUTP CH" ++ toString ch ++ ",ON")] ∧
    (RigolDP832A.configure ch v i false c d).2.1 =
      [DevOp.send (":SOUR" ++ toString ch ++ ":VOLT " ++ pyFloatStr v),
       DevOp.send (":SOUR" ++ toString ch ++ ":CURR " ++ pyFloatStr i)] := by
  unfold Device.sendSucceeds at hv hi
  constructor <;>
    simp [RigolDP832A.configure, RigolDP832A.set_voltage, RigolDP832A.set_current,
          RigolDP832A.output_on, RigolDP832A.command, sbind, sret, hv, hi]

/-- Witness for claim C9 at a concrete device, voltage and current. -/
theorem configure_send_order_witness :
    (RigolDP832A.configure 1 (PyFloat.finite 5) (PyFloat.finite 1) true clientA devAll).2.1 =
      [DevOp.send ":SOUR1:VOLT 5", DevOp.send ":SOUR1:CURR 1", DevOp.send ":OUTP CH1,ON"] ∧
    (RigolDP832A.configure 1 (PyFloat.finite 5) (PyFloat.finite 1) false clientA devAll).2.1 =
      [DevOp.send ":SOUR1:VOLT 5", DevOp.send ":SOUR1:CURR 1"] :=
  configure_send_order clientA devAll 1 (PyFloat.finite 5) (PyFloat.finite 1) (by rfl) (by rfl)

/-- Counterexample to claim C1 as stated: at a concrete device that
answers every query, `status` issues six queries, not five — the record
has six non-channel fields (output, voltage_set, current_set, voltage,
current, power) and each is read by its own query. -/
theorem status_five_queries_counterexample :
    ¬ ((RigolDP832A.status 1 clientA devAll).2.1.length = 5) := by decide

/-- Claim C1 as amended: `status` is constructed by issuing exactly six
sequential queries through the device channel — output state, voltage
setpoint, current setpoint, measured voltage, measured current and
measured power, in that order — whose results are aggregated into the
Channel Status record. -/
theorem status_six_queries (c : RigolDP832A) (d : Device) (ch : ℤ)
    (r1 r2 r3 r4 r5 r6 : String) (v2 v3 v4 v5 v6 : PyFloat)
    (h1 : d.answers (":OUTP? CH" ++ toString ch) r1)
    (h2 : d.answers (":SOUR" ++ toString ch ++ ":VOLT?") r2)
    (h3 : d.answers (":SOUR" ++ toString ch ++ ":CURR?") r3)
    (h4 : d.answers (":MEAS:VOLT? CH" ++ toString ch) r4)
    (h5 : d.answers (":MEAS:CURR? CH" ++ toString ch) r5)
    (h6 : d.answers (":MEAS:POWE? CH" ++ toString ch) r6)
    (hp2 : pyParseFloat r2 = some v2) (hp3 : pyParseFloat r3 = some v3)
    (hp4 : pyParseFloat r4 = some v4) (hp5 : pyParseFloat r5 = some v5)
    (hp6 : pyParseFloat r6 = some v6) :
    RigolDP832A.status ch c d =
      (c,
       [DevOp.query (":OUTP? CH" ++ toString ch),
        DevOp.query (":SOUR" ++ toString ch ++ ":VOLT?"),
        DevOp.query (":SOUR" ++ toString ch ++ ":CURR?"),
        DevOp.query (":MEAS:VOLT? CH" ++ toString ch),
        DevOp.query (":MEAS:CURR? CH" ++ toString ch),
        DevOp.query (":MEAS:POWE? CH" ++ toString ch)],
       Except.ok { channel := ch, output := (r1 == "ON"), voltage_set := v2,
                   current_set := v3, voltage := v4, current := v5, power := v6 }) := by
  unfold Device.answers at h1 h2 h3 h4 h5 h6
  simp [RigolDP832A.status, RigolDP832A.get_output, RigolDP832A.get_voltage_setpoint,
        RigolDP832A.get_current_setpoint, RigolDP832A.measure_voltage,
        RigolDP832A.measure_current, RigolDP832A.measure_power,
        RigolDP832A.query, RigolDP832A.toFloat, sbind, sret,
        h1, h2, h3, h4, h5, h6, hp2, hp3, hp4, hp5, hp6]

/-- Witness for claim C1 (amended) at a concrete device. -/
theorem status_six_queries_witness :
    RigolDP832A.status 1 clientA devAll =
      (clientA,
       [DevOp.query ":OUTP? CH1", DevOp.query ":SOUR1:VOLT?", DevOp.query ":SOUR1:CURR?",
        DevOp.query ":MEAS:VOLT? CH1", DevOp.query ":MEAS:CURR? CH1",
        DevOp.query ":MEAS:POWE? CH1"],
       Except.ok { channel := 1, output := true, voltage_set := PyFloat.finite 3,
                   current_set := PyFloat.finite 3, voltage := PyFloat.finite 3,
                   current := PyFloat.finite 3, power := PyFloat.finite 3 }) := by
  have h := status_six_queries clientA devAll 1 "ON" "3" "3" "3" "3" "3"
    (PyFloat.finite 3) (PyFloat.finite 3) (PyFloat.finite 3) (PyFloat.finite 3)
    (PyFloat.finite 3)
    (by rfl) (by rfl) (by rfl) (by rfl) (by rfl) (by rfl)
    (by rfl) (by rfl) (by rfl) (by rfl) (by rfl)
  exact h

/-- A method leaves the client's own state (device path and identity
string) unchanged. -/
def keepsSelf {α : Type} (m : SM α) : Prop :=
  ∀ (c : RigolDP832A) (d : Device), (m c d).1 = c

/-- Sequencing preserves the client state when both parts do. -/
theorem keepsSelf_sbind {α β : Type} {x : SM α} {f : α → SM β}
    (hx : keepsSelf x) (hf : ∀ a, keepsSelf (f a)) : keepsSelf (sbind x f) := by
  intro c d
  unfold sbind
  cases hr : (x c d).2.2 with
  | error e => simp [hx c d]
  | ok a => simp [hx c d, hf a c d]

/-- `sret` preserves the client state. -/
theorem keepsSelf_sret {α : Type} (a : α) : keepsSelf (sret a) :=
  fun _ _ => rfl

/-- `command` preserves the client state. -/
theorem keepsSelf_command (cmd : String) : keepsSelf (RigolDP832A.command cmd) :=
  fun _ _ => rfl

/-- `query` preserves the client state. -/
theorem keepsSelf_query (cmd : String) : keepsSelf (RigolDP832A.query cmd) :=
  fun _ _ => rfl

/-- `toFloat` preserves the client state. -/
theorem keepsSelf_toFloat (s : String) : keepsSelf (RigolDP832A.toFloat s) := by
  intro c d
  unfold RigolDP832A.toFloat
  cases pyParseFloat s <;> rfl

/-- The float-returning query methods preserve the client state. -/
theorem keepsSelf_queryFloat (q : String) :
    keepsSelf (sbind (RigolDP832A.query q) RigolDP832A.toFloat) :=
  keepsSelf_sbind (keepsSelf_query q) (fun s => keepsSelf_toFloat s)

/-- Claim C10: after construction, every client operation — output
control, setpoints, measurements, protection, status, `all_off`,
`configure`, raw `command` and `query` — returns the client state it was
given: the stored device path and captured identity string are never
modified by any operation other than construction. -/
theorem operations_preserve_client_state (ch : ℤ) (v i : PyFloat) (b : Bool)
    (cmd : String) (c : RigolDP832A) (d : Device) :
    (RigolDP832A.output_on ch c d).1 = c ∧
    (RigolDP832A.output_off ch c d).1 = c ∧
    (RigolDP832A.get_output ch c d).1 = c ∧
    (RigolDP832A.set_voltage ch v c d).1 = c ∧
    (RigolDP832A.get_voltage_setpoint ch c d).1 = c ∧
    (RigolDP832A.measure_voltage ch c d).1 = c ∧
    (RigolDP832A.set_current ch i c d).1 = c ∧
    (RigolDP832A.get_current_setpoint ch c d).1 = c ∧
    (RigolDP832A.measure_current ch c d).1 = c ∧
    (RigolDP832A.measure_power ch c d).1 = c ∧
    (RigolDP832A.set_ovp ch v c d).1 = c ∧
    (RigolDP832A.set_ocp ch i c d).1 = c ∧
    (RigolDP832A.status ch c d).1 = c ∧
    (RigolDP832A.all_off c d).1 = c ∧
    (RigolDP832A.configure ch v i b c d).1 = c ∧
    (RigolDP832A.command cmd c d).1 = c ∧
    (RigolDP832A.query cmd c d).1 = c := by
  have houtOn : keepsSelf (RigolDP832A.output_on ch) := keepsSelf_command _
  have houtOff : ∀ n : ℤ, keepsSelf (RigolDP832A.output_off n) :=
    fun n => keepsSelf_command _
  have hget : keepsSelf (RigolDP832A.get_output ch) :=
    keepsSelf_sbind (keepsSelf_query _) (fun s => keepsSelf_sret _)
  have hstatus : keepsSelf (RigolDP832A.status ch) :=
    keepsSelf_sbind hget (fun _ =>
      keepsSelf_sbind (keepsSelf_queryFloat _) (fun _ =>
        keepsSelf_sbind (keepsSelf_queryFloat _) (fun _ =>
          keepsSelf_sbind (keepsSelf_queryFloat _) (fun _ =>
            keepsSelf_sbind (keepsSelf_queryFloat _) (fun _ =>
              keepsSelf_sbind (keepsSelf_queryFloat _) (fun _ =>
                keepsSelf_sret _))))))
  have halloff : keepsSelf RigolDP832A.all_off :=
    keepsSelf_sbind (houtOff 1) (fun _ =>
      keepsSelf_sbind (houtOff 2) (fun _ => houtOff 3))
  have hconf : keepsSelf (RigolDP832A.configure ch v i b) := by
    apply keepsSelf_sbind (keepsSelf_command _)
    intro _
    apply keepsSelf_sbind (keepsSelf_command _)
    intro _
    cases b
    · exact keepsSelf_sret _
    · exact keepsSelf_command _
  have hovp : keepsSelf (RigolDP832A.set_ovp ch v) :=
    keepsSelf_sbind (keepsSelf_command _) (fun _ => keepsSelf_command _)
  have hocp : keepsSelf (RigolDP832A.set_ocp ch i) :=
    keepsSelf_sbind (keepsSelf_command _) (fun _ => keepsSelf_command _)
  exact ⟨houtOn c d, houtOff ch c d, hget c d, rfl, keepsSelf_queryFloat _ c d,
         keepsSelf_queryFloat _ c d, rfl, keepsSelf_queryFloat _ c d,
         keepsSelf_queryFloat _ c d, keepsSelf_queryFloat _ c d,
         hovp c d, hocp c d, hstatus c d, halloff c d, hconf c d, rfl, rfl⟩
